import Mathlib

/-!
Verification of the summary-computation and report-composition pipeline of
the Chemical-Equipment-Parameter-Visualizer repository.

The embedding models, from `src/api/views.py` and
`src/desktop-frontend/pyqt_app.py`:
  * the upload/summarize pipeline of `UploadCSVView.post`
    (column-name trimming, required-column check, numeric coercion,
    averages, `value_counts`-style type distribution, per-type averages,
    preview rows, persistence of the dataset record),
  * the chart builders `create_chart_image` (API) and `create_plot_image`
    (desktop), with the matplotlib/savefig layer abstracted as an oracle
    that either yields PNG bytes or raises,
  * the preview-table layouts of `ReportFromSummaryView.post`,
    `ReportView.get` and `generate_nice_pdf`,
  * the analysis-chart section of `ReportFromSummaryView.post`.

Machine floats of pandas are modelled as rationals (ℚ); cells parsed from
the CSV are modelled as already-typed values (`Cell`), with pandas'
`to_numeric(errors='coerce')` modelled by a decimal-literal parser whose
failures become missing values (NaN).
-/

namespace CEPV

/-- A dataframe cell: missing (pandas NaN), a string, or a number. -/
inductive Cell where
  | na : Cell
  | str (s : String) : Cell
  | num (q : ℚ) : Cell
deriving DecidableEq, Repr

/-- Python `str.strip()`: drop leading and trailing whitespace. -/
def pyStrip (s : String) : String :=
  ⟨((s.data.dropWhile Char.isWhitespace).reverse.dropWhile
      Char.isWhitespace).reverse⟩

/-- Python `s[:n]`: the first `n` characters of a string. -/
def pyTake (s : String) (n : Nat) : String :=
  ⟨s.data.take n⟩

/-- Digits-only character list to Nat (helper for the numeric-coercion
model). -/
def digitsToNat (cs : List Char) : Option Nat :=
  if cs ≠ [] ∧ cs.all Char.isDigit then
    some (cs.foldl (fun a c => a * 10 + (c.toNat - 48)) 0)
  else none

/-- Split a character list at every '.' (the shape of
`"10.5".split('.')`). -/
def splitOnDot : List Char → List (List Char)
  | [] => [[]]
  | c :: rest =>
      if c = '.' then [] :: splitOnDot rest
      else
        match splitOnDot rest with
        | [] => [[c]]
        | h :: t => (c :: h) :: t

/-- Decimal-literal parser modelling the numeric strings accepted by
pandas `to_numeric` (optional sign, integer part, optional fraction;
surrounding whitespace ignored). -/
def parseDecimal (s : String) : Option ℚ :=
  let cs := (pyStrip s).data
  let (neg, body) :=
    match cs with
    | '-' :: rest => (true, rest)
    | '+' :: rest => (false, rest)
    | rest => (false, rest)
  match splitOnDot body with
  | [ip] =>
      (digitsToNat ip).map (fun n => if neg then -(n : ℚ) else (n : ℚ))
  | [ip, fp] =>
      match digitsToNat ip, digitsToNat fp with
      | some i, some f =>
          let q : ℚ := (i : ℚ) + (f : ℚ) / (10 ^ fp.length)
          some (if neg then -q else q)
      | _, _ => none
  | _ => none

/-- `pd.to_numeric(x, errors='coerce')` on one cell: numbers pass through,
missing stays missing, strings are parsed and become missing on failure. -/
def toNumeric : Cell → Cell
  | .na => .na
  | .num q => .num q
  | .str s => match parseDecimal s with
      | some q => .num q
      | none => .na

/-- `notNA c` is true unless the cell is missing (pandas `notna`). -/
def notNA : Cell → Bool
  | .na => false
  | _ => true

/-- Numeric view of a cell (`none` for anything that is not a number). -/
def cellNum : Cell → Option ℚ
  | .num q => some q
  | _ => none

/-- A parsed dataframe: ordered column names and rows aligned with them
(`pd.read_csv` result). -/
structure DataFrame where
  columns : List String
  rows : List (List Cell)
deriving DecidableEq, Repr

/-- Cell of `row` in column `c`, by the dataframe's column order. -/
def getCell (df : DataFrame) (row : List Cell) (c : String) : Cell :=
  match df.columns.indexOf? c with
  | some i => row.getD i .na
  | none => .na

/-- Column `c` as a list of cells, one per row (`df[c]`). -/
def getCol (df : DataFrame) (c : String) : List Cell :=
  df.rows.map (fun r => getCell df r c)

/-- `df.columns = [str(c).strip() for c in df.columns]` (views.py:182). -/
def stripColumns (df : DataFrame) : DataFrame :=
  { df with columns := df.columns.map pyStrip }

/-- The three numeric columns coerced by views.py:196-197. -/
def numeric_cols : List String := ["Flowrate", "Pressure", "Temperature"]

/-- The required column set of views.py:183. -/
def requiredCols : List String :=
  ["Equipment Name", "Type", "Flowrate", "Pressure", "Temperature"]

/-- `sorted(required)` as rendered in the schema-error message
(views.py:189). -/
def requiredSorted : List String :=
  ["Equipment Name", "Flowrate", "Pressure", "Temperature", "Type"]

/-- Coerce the numeric columns of one row
(`df[col] = pd.to_numeric(df[col], errors='coerce')`, views.py:196-197). -/
def coerceRow (cols : List String) (row : List Cell) : List Cell :=
  (cols.zip row).map (fun p => if p.1 ∈ numeric_cols then toNumeric p.2 else p.2)

/-- Coerce the numeric columns of the whole frame. -/
def coerceNumeric (df : DataFrame) : DataFrame :=
  { df with rows := df.rows.map (coerceRow df.columns) }

/-- Mean of a list of rationals, `none` when the list is empty
(`df[col].mean()` is NaN exactly when every value is missing). -/
def meanOpt (l : List ℚ) : Option ℚ :=
  if l = [] then none else some (l.sum / (l.length : ℚ))

/-- The non-missing numeric values of column `c` (`df[col].dropna()`). -/
def numericValues (df : DataFrame) (c : String) : List ℚ :=
  (getCol df c).filterMap cellNum

/-- `averages` of views.py:201-204: per numeric column, the mean of the
non-missing values, `None` when the column has no non-missing value. -/
def averagesOf (df : DataFrame) : List (String × Option ℚ) :=
  numeric_cols.map (fun c => (c, meanOpt (numericValues df c)))

/-- The `Type` column (`df['Type']`). -/
def typeCol (df : DataFrame) : List Cell :=
  getCol df "Type"

/-- Distinct non-missing `Type` values. `value_counts` and `groupby`
both drop NaN keys (pandas default `dropna=True`); the key order of the
resulting dict is not significant for any claim. -/
def typeKeys (df : DataFrame) : List Cell :=
  ((typeCol df).filter notNA).dedup

/-- `df['Type'].value_counts().to_dict()` (views.py:205): occurrence
counts of the distinct non-missing `Type` values. -/
def typeDistribution (df : DataFrame) : List (Cell × Nat) :=
  (typeKeys df).map (fun k => (k, ((typeCol df).filter notNA).count k))

/-- Rows whose `Type` cell equals `t`. -/
def rowsOfType (df : DataFrame) (t : Cell) : List (List Cell) :=
  df.rows.filter (fun r => getCell df r "Type" = t)

/-- Non-missing values of column `c` among rows of type `t`. -/
def perTypeValues (df : DataFrame) (c : String) (t : Cell) : List ℚ :=
  (rowsOfType df t).filterMap (fun r => cellNum (getCell df r c))

/-- `per_type_averages` of views.py:215-223:
`df.groupby('Type')[col].mean()` per numeric column, `None` for a NaN
group mean (a (column,type) partition with no non-missing value). -/
def perTypeAverages (df : DataFrame) : List (String × List (Cell × Option ℚ)) :=
  numeric_cols.map (fun c =>
    (c, (typeKeys df).map (fun t => (t, meanOpt (perTypeValues df c t)))))

/-- The computed summary blob of views.py:208-223. -/
structure Summary where
  total_count : Nat
  averages : List (String × Option ℚ)
  type_distribution : List (Cell × Nat)
  per_type_averages : List (String × List (Cell × Option ℚ))
deriving DecidableEq, Repr

/-- Payload of the schema-error response of views.py:184-193. -/
structure SchemaErr where
  required : List String
  found : List String
deriving DecidableEq, Repr

/-- Successful summarization result: summary plus the preview rows
(`df.head(8).to_dict(orient='records')`, views.py:230) and trimmed
columns. -/
structure UploadResult where
  summary : Summary
  preview_rows : List (List Cell)
  columns : List String
deriving DecidableEq, Repr

/-- The success branch of `UploadCSVView.post` (views.py:196-232): coerce
the numeric columns, then compute total count, averages, type
distribution, per-type averages and the 8-row preview.  Note the preview
is taken from the already-coerced frame (views.py:230 runs after
views.py:196-197). -/
def summarizeOk (df0 : DataFrame) : UploadResult :=
  let df := coerceNumeric (stripColumns df0)
  { summary :=
      { total_count := df.rows.length
        averages := averagesOf df
        type_distribution := typeDistribution df
        per_type_averages := perTypeAverages df }
    preview_rows := df.rows.take 8
    columns := df.columns }

/-- The summarization pipeline of `UploadCSVView.post` (views.py:181-232):
trim column names, check the required column set
(`required.issubset(set(df.columns))`), and either compute the summary or
fail with the schema error listing the required and the found columns. -/
def summarize (df0 : DataFrame) : Except SchemaErr UploadResult :=
  let df1 := stripColumns df0
  if requiredCols.all (fun c => df1.columns.contains c) then
    .ok (summarizeOk df0)
  else
    .error { required := requiredSorted, found := df1.columns }

/-- A persisted dataset record (`UploadedDataset.objects.create`,
views.py:244-249). -/
structure StoredRecord where
  original_filename : String
  summary : Summary
deriving DecidableEq, Repr

/-- The HTTP outcome of the upload view. -/
inductive UploadResponse where
  | badRequest (required found : List String) : UploadResponse
  | created (r : UploadResult) : UploadResponse
deriving DecidableEq, Repr

/-- `UploadCSVView.post` as a transition on the stored records: the record
is created only after a successful summarization; a schema error responds
400 and leaves the store unchanged (the per-user keep-last-5 pruning is
not modelled — no claim concerns it). -/
def uploadPost (store : List StoredRecord) (filename : String)
    (df0 : DataFrame) : List StoredRecord × UploadResponse :=
  match summarize df0 with
  | .error e => (store, .badRequest e.required e.found)
  | .ok r =>
      (store ++ [{ original_filename := filename, summary := r.summary }],
       .created r)

/-! ### Chart renderer (API side): `create_chart_image`, views.py:32-117 -/

/-- The figure handed to the plotting layer by `create_chart_image`:
which matplotlib calls are issued with which data.  `pieWedges` is only
built in the nonzero-sum branch; the wedge fractions (division by the
sum) are computed inside `plt.pie`. -/
inductive ChartSpec where
  | bars (labels : List Cell) (counts : List Nat) : ChartSpec
  | pieWedges (counts : List Nat) : ChartSpec
  | linePts (labels : List Cell) (counts : List Nat) : ChartSpec
  | histogram (nums : List ℚ) (bins : Nat) : ChartSpec
  | textNoData : ChartSpec
  | textNoNumeric : ChartSpec
deriving DecidableEq, Repr

/-- The numeric sample of the `hist` branch (views.py:44-51): the
non-`None` averages, falling back to the distribution counts when there
are none. -/
def histNums (summary : Summary) : List ℚ :=
  let avgNums := summary.averages.filterMap Prod.snd
  if avgNums = [] then
    (summary.type_distribution.map Prod.snd).map (fun n => (n : ℚ))
  else avgNums

/-- The chart built by `create_chart_image` from the summary's
`type_distribution` (and, for `hist`, its `averages`), chart-type
branching as in views.py:44-100; unknown chart types fall back to the
bar chart. -/
def buildChart (summary : Summary) (chart_type : String) : ChartSpec :=
  let labels := summary.type_distribution.map Prod.fst
  let counts := summary.type_distribution.map Prod.snd
  if chart_type = "pie" then
    if counts.sum = 0 then .textNoData else .pieWedges counts
  else if chart_type = "line" then .linePts labels counts
  else if chart_type = "hist" then
    if histNums summary = [] then .textNoNumeric
    else .histogram (histNums summary) (min 10 (max 1 (histNums summary).length))
  else .bars labels counts

/-- `create_chart_image` with the matplotlib/savefig layer abstracted as
`render` (PNG bytes, or an exception).  Faithful to views.py:102-117: any
exception yields `None`, and an empty saved buffer also yields `None`. -/
def create_chart_image (summary : Summary) (chart_type : String)
    (render : ChartSpec → Except Unit (List Nat)) : Option (List Nat) :=
  match render (buildChart summary chart_type) with
  | .error _ => none
  | .ok bytes => if bytes.length = 0 then none else some bytes

/-! ### Chart renderer (desktop side): `create_plot_image`,
pyqt_app.py:112-201 -/

/-- `safe_label` of pyqt_app.py:36-42: truncate long labels with an
ellipsis. -/
def safe_label (s : String) (max_len : Nat := 20) : String :=
  if s.length ≤ max_len then s else pyTake s (max_len - 3) ++ "..."

/-- Plotted values of the desktop renderer (pyqt_app.py:121):
`values_dict.get(k, 0) or 0` — a missing (`None`) average, and a zero
average, both plot as 0. -/
def deskVals (values_dict : List (String × Option ℚ)) : List ℚ :=
  values_dict.map (fun p =>
    match p.2 with
    | none => 0
    | some v => if v = 0 then 0 else v)

/-- The figure handed to the plotting layer by `create_plot_image`,
including the fallback figures drawn on an empty buffer
(`placeholderText`) and inside the exception handler (`errorText`). -/
inductive DeskSpec where
  | dbars (labels : List String) (vals : List ℚ) (horizontal : Bool) : DeskSpec
  | dline (labels : List String) (vals : List ℚ) : DeskSpec
  | dpieWedges (vals : List ℚ) : DeskSpec
  | dhist (nums : List ℚ) (bins : Nat) : DeskSpec
  | dtextNoData : DeskSpec
  | dtextNoNumeric : DeskSpec
  | placeholderText : DeskSpec
  | errorText : DeskSpec
deriving DecidableEq, Repr

/-- The chart built by `create_plot_image` (pyqt_app.py:120-162):
labels are shortened, `None` values plot as 0, ≥ 8 categories switch the
bar chart to horizontal, a zero-sum pie becomes a "No data" text, and
`hist` bins are `min(10, max(1, len(nums)))`. -/
def buildPlot (values_dict : List (String × Option ℚ))
    (chart_type : String) : DeskSpec :=
  let labels := values_dict.map Prod.fst
  let vals := deskVals values_dict
  let labels_short := labels.map (fun l => safe_label l 20)
  let use_hbar := 8 ≤ max 1 labels_short.length
  if chart_type = "bar" then .dbars labels_short vals use_hbar
  else if chart_type = "line" then .dline labels_short vals
  else if chart_type = "pie" then
    if vals.sum = 0 then .dtextNoData else .dpieWedges vals
  else if chart_type = "hist" then
    if vals = [] then .dtextNoNumeric
    else .dhist vals (min 10 (max 1 vals.length))
  else .dbars labels_short vals false

/-- The PNG signature bytes written by the innermost fallback of
`create_plot_image` (pyqt_app.py:199). -/
def pngMagic : List Nat := [137, 80, 78, 71, 13, 10, 26, 10]

/-- Exception-handler path of `create_plot_image` (pyqt_app.py:185-201):
draw an error-text figure; if even that fails, return the raw PNG
signature bytes. -/
def deskErrorPath (render : DeskSpec → Except Unit (List Nat)) : List Nat :=
  match render .errorText with
  | .ok eb => eb
  | .error _ => pngMagic

/-- `create_plot_image` with the savefig layer abstracted as `render`:
on success with a non-empty buffer return it; on an empty buffer render a
placeholder figure; on any exception take the error path — the desktop
renderer never returns `None` (pyqt_app.py:112-201). -/
def create_plot_image (values_dict : List (String × Option ℚ))
    (chart_type : String)
    (render : DeskSpec → Except Unit (List Nat)) : List Nat :=
  match render (buildPlot values_dict chart_type) with
  | .ok bytes =>
      if bytes.length = 0 then
        match render .placeholderText with
        | .ok pb => pb
        | .error _ => deskErrorPath render
      else bytes
  | .error _ => deskErrorPath render

/-! ### The two callers of `create_chart_image` and their handling of a
`None` result -/

/-- What the type-distribution slot of a report contains: an embedded
chart image, or a textual notice in its place. -/
inductive TypeChartBlock where
  | image (bytes : List Nat) : TypeChartBlock
  | notAvailableText : TypeChartBlock
deriving DecidableEq, Repr

/-- The type-distribution section of `ReportFromSummaryView.post`
(views.py:594-629): `if chart_buf:` embeds the image, `else:` draws the
text "Type distribution chart not available."  (The embed-exception red
text of views.py:615-624 belongs to the PDF layer and is not modelled.) -/
def adHocTypeChartSection (summary : Summary) (chart_type : String)
    (render : ChartSpec → Except Unit (List Nat)) : List TypeChartBlock :=
  match create_chart_image summary chart_type render with
  | some b => [.image b]
  | none => [.notAvailableText]

/-- The chart block of `ReportView.get` (views.py:437-454):
`if chart_buf:` embeds the image — there is no `else`, so a `None` from
the renderer silently omits the chart, with no textual fallback. -/
def reportViewChartSection (summary : Summary) (chart_type : String)
    (render : ChartSpec → Except Unit (List Nat)) : List TypeChartBlock :=
  match create_chart_image summary chart_type render with
  | some b => [.image b]
  | none => []

/-! ### Report composer preview tables -/

/-- A rendered preview table: header labels and rows of cell strings. -/
structure RenderedTable where
  cols : List String
  rows : List (List String)
deriving DecidableEq, Repr

/-- Python `str()` of a cell as it reaches the table drawing code
(approximation: numbers via `Rat` printing; NaN prints "nan"). -/
def cellStr : Cell → String
  | .na => "nan"
  | .str s => s
  | .num q => toString q

/-- Preview table of `ReportFromSummaryView.post` (views.py:794-839):
columns are ALL keys of the first ad-hoc preview row (no column-count
truncation; the page width is divided evenly among them), headers and
cells truncated to 12 characters, rows capped at the first 10. -/
def adHocPreviewTable (preview_rows : List (List (String × String))) :
    RenderedTable :=
  let cols := match preview_rows with
    | [] => []
    | r :: _ => r.map Prod.fst
  { cols := cols.map (fun c => pyTake c 12)
    rows := (preview_rows.take 10).map (fun row =>
      cols.map (fun c => pyTake ((row.lookup c).getD "") 12)) }

/-- Preview table of `ReportView.get` (views.py:457-481): first 8 rows of
the stored CSV, ALL columns (drawn at a fixed 110pt step, no column-count
truncation), headers and cells truncated to 15 characters. -/
def reportViewPreviewTable (df : DataFrame) : RenderedTable :=
  { cols := df.columns.map (fun c => pyTake c 15)
    rows := (df.rows.take 8).map (fun row =>
      row.map (fun cell => pyTake (cellStr cell) 15)) }

/-- Preview table of the desktop `generate_nice_pdf`
(pyqt_app.py:334-341): columns truncated to the first 6 keys of the
first row, rows capped at the first 8. -/
def nicePdfPreviewTable (preview_rows : List (List (String × String))) :
    RenderedTable :=
  let cols := (match preview_rows with
    | [] => []
    | r :: _ => r.map Prod.fst).take 6
  { cols := cols
    rows := (preview_rows.take 8).map (fun row =>
      cols.map (fun c => (row.lookup c).getD "")) }

/-! ### Analysis-chart section of `ReportFromSummaryView.post`,
views.py:631-791 -/

/-- Plotted values of an analysis chart (views.py:669-672):
`data_dict[k] if data_dict[k] is not None else 0`. -/
def analysisVals (data_dict : List (Cell × Option ℚ)) : List ℚ :=
  data_dict.map (fun p =>
    match p.2 with
    | some v => v
    | none => 0)

/-- The `include.analysis` block of a `ReportFromSummaryView` request. -/
structure AnalysisCfg where
  inc : Bool
  mode : String
  parameter : Option String
deriving DecidableEq, Repr

/-- views.py:634-637: the parameters drawn in the analysis section —
both branches of the `analysis_mode` test yield the same list, and the
`parameter` field is never read by the view. -/
def params_to_draw (analysis_mode : String) : List String :=
  if analysis_mode = "all" then ["Flowrate", "Pressure", "Temperature"]
  else ["Flowrate", "Pressure", "Temperature"]

/-- One block of the analysis section: either the textual notice for an
absent `per_type_averages`, or a drawn chart for one parameter. -/
inductive AnalysisBlock where
  | notice : AnalysisBlock
  | chart (param : String) (chart_type : String)
      (labels : List Cell) (vals : List ℚ) : AnalysisBlock
deriving DecidableEq, Repr

/-- The analysis section drawn by `ReportFromSummaryView.post`
(views.py:631-791): nothing when analysis is not included; a single
notice when `per_type_averages` is empty; otherwise one chart per
parameter of `params_to_draw` whose `data_dict` is non-empty (empty ones
are skipped with `continue`), with the chart type looked up in
`analysis_chart_types` defaulting to `bar` and `None` averages plotted
as 0. -/
def analysisSection (summary : Summary) (cfg : AnalysisCfg)
    (analysis_chart_types : List (String × String)) : List AnalysisBlock :=
  if cfg.inc = false then []
  else
    let pta := summary.per_type_averages
    if pta = [] then [.notice]
    else
      (params_to_draw cfg.mode).filterMap (fun param =>
        let dd := (pta.lookup param).getD []
        if dd = [] then none
        else some (.chart param
          ((analysis_chart_types.lookup param).getD "bar")
          (dd.map Prod.fst) (analysisVals dd)))

/-! ### Concrete datasets used in the theorems -/

/-- The three-row Pump/Pump/Valve dataset of the spec's concrete
scenario (§8). -/
def egC4 : DataFrame :=
  { columns := ["Equipment Name", "Type", "Flowrate", "Pressure", "Temperature"]
    rows := [[.str "P1", .str "Pump", .num 10, .num 5, .num 20],
             [.str "P2", .str "Pump", .num 20, .na, .num 30],
             [.str "V1", .str "Valve", .na, .num 15, .na]] }

/-- A one-row dataset whose `Type` cell is missing. -/
def egC1 : DataFrame :=
  { columns := ["Equipment Name", "Type", "Flowrate", "Pressure", "Temperature"]
    rows := [[.str "E", .na, .num 1, .num 2, .num 3]] }

/-- A one-row dataset with a non-coercible `Flowrate` string. -/
def egC6 : DataFrame :=
  { columns := ["Equipment Name", "Type", "Flowrate", "Pressure", "Temperature"]
    rows := [[.str "E1", .str "Pump", .str "abc", .num 1, .num 2]] }

/-- A dataset missing the required `Type` column. -/
def egC5 : DataFrame :=
  { columns := ["Equipment Name", "Flowrate", "Pressure", "Temperature"]
    rows := [] }

/-- The summary of an empty distribution (no rows). -/
def emptySummary : Summary :=
  { total_count := 0, averages := [], type_distribution := []
    per_type_averages := [] }

/-- An ad-hoc preview row with seven columns. -/
def egWide : List (List (String × String)) :=
  [[("A", "1"), ("B", "2"), ("C", "3"), ("D", "4"), ("E", "5"),
    ("F", "6"), ("G", "7")]]

/-! ### Helper lemmas -/

/-- Summing, over the distinct elements of a list, the number of
occurrences of each, gives the list's length. -/
theorem sum_dedup_count {α : Type} [DecidableEq α] (l : List α) :
    (l.dedup.map (fun k => l.count k)).sum = l.length := by
  have h := Multiset.toFinset_sum_count_eq (l : Multiset α)
  rw [Finset.sum, Multiset.toFinset_val, Multiset.coe_dedup,
    Multiset.map_coe, Multiset.sum_coe, Multiset.coe_card] at h
  simpa [Multiset.coe_count] using h

/-- Looking up `a` in the association list pairing each element of a
duplicate-free list with `f` of it yields `f a`. -/
theorem lookup_map_self {α β : Type} [DecidableEq α] (f : α → β) :
    ∀ (l : List α), l.Nodup → ∀ a ∈ l,
      (l.map (fun x => (x, f x))).lookup a = some (f a) := by
  intro l
  induction l with
  | nil => intro _ a ha; cases ha
  | cons b l ih =>
    intro hnd a ha
    rcases List.mem_cons.mp ha with rfl | ha'
    · simp [List.lookup]
    · have hab : a ≠ b := fun he => (List.nodup_cons.mp hnd).1 (he ▸ ha')
      have hbeq : (a == b) = false := by simpa using hab
      simp only [List.map_cons, List.lookup, hbeq]
      exact ih (List.Nodup.of_cons hnd) a ha'

/-- An accepted upload is exactly the success branch. -/
theorem summarize_ok_eq {df0 : DataFrame} {r : UploadResult}
    (h : summarize df0 = .ok r) : r = summarizeOk df0 := by
  simp only [summarize] at h
  split at h
  · exact (Except.ok.inj h).symm
  · exact absurd h (by simp)

/-! ### Claim theorems -/

/-- Claim C1, counterexample: on a dataset whose single row has a missing
`Type` cell, the summarizer accepts the upload but
`df['Type'].value_counts()` (pandas default `dropna=True`) silently drops
the row, so the type-distribution counts sum to 0 while `total_count` is
1 — refuting both that the sum always equals `total_count` and that
missing `Type` values are grouped under their own key. -/
theorem C1_counterexample :
    ∃ r, summarize egC1 = .ok r ∧
      (r.summary.type_distribution.map Prod.snd).sum ≠ r.summary.total_count :=
  ⟨summarizeOk egC1, rfl, by decide⟩

/-- Claim C1, amended: for every accepted dataset the type-distribution
counts sum to the number of rows whose `Type` cell is non-missing (rows
with missing `Type` are dropped by `value_counts`); when no `Type` cell
is missing the sum equals `total_count`. -/
theorem C1_type_distribution_sum (df0 : DataFrame) (r : UploadResult)
    (h : summarize df0 = .ok r) :
    (r.summary.type_distribution.map Prod.snd).sum
      = ((typeCol (coerceNumeric (stripColumns df0))).filter notNA).length
    ∧ ((∀ c ∈ typeCol (coerceNumeric (stripColumns df0)), notNA c = true) →
        (r.summary.type_distribution.map Prod.snd).sum
          = r.summary.total_count) := by
  obtain rfl := summarize_ok_eq h
  simp only [summarizeOk]
  have hsum : ((typeDistribution (coerceNumeric (stripColumns df0))).map
      Prod.snd).sum
      = ((typeCol (coerceNumeric (stripColumns df0))).filter notNA).length := by
    unfold typeDistribution typeKeys
    rw [List.map_map]
    exact sum_dedup_count _
  refine ⟨hsum, fun hall => ?_⟩
  rw [hsum, List.filter_eq_self.mpr hall]
  unfold typeCol getCol
  rw [List.length_map]

/-- Claim C1, witness: on the Pump/Pump/Valve dataset every `Type` cell
is present and the distribution counts sum to the total count. -/
theorem C1_witness :
    ((summarizeOk egC4).summary.type_distribution.map Prod.snd).sum
      = (summarizeOk egC4).summary.total_count :=
  (C1_type_distribution_sum egC4 (summarizeOk egC4) rfl).2 (by decide)

/-- Claim C5: when the trimmed column set lacks a required column the
upload responds with the schema error carrying both the (sorted)
required column list and the columns actually found, and the stored
records are unchanged. -/
theorem C5_schema_error (store : List StoredRecord) (filename : String)
    (df0 : DataFrame)
    (h : (requiredCols.all fun c => (stripColumns df0).columns.contains c)
          = false) :
    uploadPost store filename df0
      = (store, .badRequest requiredSorted (stripColumns df0).columns) := by
  have h' : ¬ (requiredCols.all
      fun c => (stripColumns df0).columns.contains c) = true := by
    simp only [h]
    decide
  simp only [uploadPost, summarize]
  rw [if_neg h']

/-- Claim C5, witness: uploading a dataset without a `Type` column leaves
the store unchanged and reports the required and found columns. -/
theorem C5_witness :
    uploadPost [] "data.csv" egC5
      = ([], .badRequest requiredSorted (stripColumns egC5).columns) :=
  C5_schema_error [] "data.csv" egC5 (by decide)

/-- Claim C6, counterexample: for the dataset whose `Flowrate` cell holds
the non-coercible string "abc", the stored preview rows are NOT the
original first rows — the preview is computed from the already-coerced
frame, so the cell appears as missing instead of "abc". -/
theorem C6_counterexample :
    ∃ r, summarize egC6 = .ok r ∧ r.preview_rows ≠ egC6.rows.take 8 :=
  ⟨summarizeOk egC6, rfl, by decide⟩

/-- Claim C6, amended: the preview consists of the first 8 rows in
original dataset order with the original column order (names trimmed),
but with the three numeric columns' values coerced — non-coercible
values appear as missing, so the preview is not independent of the
coercion step. -/
theorem C6_preview_coerced (df0 : DataFrame) (r : UploadResult)
    (h : summarize df0 = .ok r) :
    r.preview_rows
      = (df0.rows.take 8).map (coerceRow (df0.columns.map pyStrip))
    ∧ r.columns = df0.columns.map pyStrip := by
  obtain rfl := summarize_ok_eq h
  constructor
  · show (coerceNumeric (stripColumns df0)).rows.take 8 = _
    simp only [coerceNumeric, stripColumns]
    exact (List.map_take _ _ _).symm
  · rfl

/-- Claim C6, witness: on the Pump/Pump/Valve dataset (already numeric)
the preview equals the coerced first rows. -/
theorem C6_witness :
    (summarizeOk egC4).preview_rows
      = (egC4.rows.take 8).map
          (coerceRow (egC4.columns.map pyStrip)) :=
  (C6_preview_coerced egC4 (summarizeOk egC4) rfl).1

/-- Claim C3: for every accepted dataset and numeric column, the stored
average is the mean of the column's non-missing (coercible) values over
the whole dataset; it is `None` (null, not zero) when the column has no
non-missing value; and `total_count` counts all rows, including those
with missing numeric cells. -/
theorem C3_averages (df0 : DataFrame) (r : UploadResult) (c : String)
    (h : summarize df0 = .ok r) (hc : c ∈ numeric_cols) :
    r.summary.averages.lookup c
      = some (meanOpt (numericValues (coerceNumeric (stripColumns df0)) c))
    ∧ (numericValues (coerceNumeric (stripColumns df0)) c = [] →
        r.summary.averages.lookup c = some none)
    ∧ (∀ vs, numericValues (coerceNumeric (stripColumns df0)) c = vs →
        vs ≠ [] →
        r.summary.averages.lookup c
          = some (some (vs.sum / (vs.length : ℚ))))
    ∧ r.summary.total_count = df0.rows.length := by
  obtain rfl := summarize_ok_eq h
  have hl : (summarizeOk df0).summary.averages.lookup c
      = some (meanOpt (numericValues (coerceNumeric (stripColumns df0)) c)) := by
    show (averagesOf (coerceNumeric (stripColumns df0))).lookup c = _
    exact lookup_map_self _ numeric_cols (by decide) c hc
  refine ⟨hl, fun he => ?_, fun vs hvs hne => ?_, ?_⟩
  · rw [hl, he]
    rfl
  · rw [hl, hvs]
    unfold meanOpt
    rw [if_neg hne]
  · show (coerceNumeric (stripColumns df0)).rows.length = df0.rows.length
    simp [coerceNumeric, stripColumns]

/-- Claim C3, witness: on the Pump/Pump/Valve dataset the Flowrate
average evaluates to 15 (mean of the two non-missing values) and the
total count to 3. -/
theorem C3_witness :
    (summarizeOk egC4).summary.averages.lookup "Flowrate" = some (some 15)
    ∧ (summarizeOk egC4).summary.total_count = egC4.rows.length := by
  have h := C3_averages egC4 (summarizeOk egC4) "Flowrate" rfl (by decide)
  refine ⟨?_, h.2.2.2⟩
  rw [h.1]
  with_unfolding_all rfl

/-- Claim C4: for every accepted dataset, numeric column `c` and
occurring (non-missing) `Type` value `t`, the stored per-type average is
the mean of the non-missing values of `c` among rows of type `t`
(`None` when that partition has none); and the three-row Pump/Pump/Valve
dataset yields exactly the summary values the spec claims. -/
theorem C4_per_type_averages (df0 : DataFrame) (r : UploadResult)
    (c : String) (t : Cell) (h : summarize df0 = .ok r)
    (hc : c ∈ numeric_cols)
    (ht : t ∈ typeKeys (coerceNumeric (stripColumns df0))) :
    (((r.summary.per_type_averages.lookup c).getD []).lookup t
      = some (meanOpt (perTypeValues (coerceNumeric (stripColumns df0)) c t)))
    ∧ summarize egC4 = .ok
        { summary :=
            { total_count := 3
              averages := [("Flowrate", some 15), ("Pressure", some 10),
                           ("Temperature", some 25)]
              type_distribution := [(.str "Pump", 2), (.str "Valve", 1)]
              per_type_averages :=
                [("Flowrate", [(.str "Pump", some 15), (.str "Valve", none)]),
                 ("Pressure", [(.str "Pump", some 5), (.str "Valve", some 15)]),
                 ("Temperature",
                  [(.str "Pump", some 25), (.str "Valve", none)])] }
          preview_rows := egC4.rows
          columns := egC4.columns } := by
  obtain rfl := summarize_ok_eq h
  constructor
  · have h1 : (summarizeOk df0).summary.per_type_averages.lookup c
        = some ((typeKeys (coerceNumeric (stripColumns df0))).map
            (fun t => (t, meanOpt
              (perTypeValues (coerceNumeric (stripColumns df0)) c t)))) := by
      show (perTypeAverages (coerceNumeric (stripColumns df0))).lookup c = _
      exact lookup_map_self _ numeric_cols (by decide) c hc
    rw [h1]
    exact lookup_map_self _ (typeKeys (coerceNumeric (stripColumns df0)))
      (List.nodup_dedup _) t ht
  · with_unfolding_all rfl

/-- Claim C4, witness: the Valve partition of the Pressure column
evaluates to the mean 15 of its single non-missing value. -/
theorem C4_witness :
    (((summarizeOk egC4).summary.per_type_averages.lookup "Pressure").getD
        []).lookup (.str "Valve") = some (some 15) := by
  have h := (C4_per_type_averages egC4 (summarizeOk egC4) "Pressure"
      (.str "Valve") rfl (by decide) (by decide)).1
  rw [h]
  with_unfolding_all rfl

/-- Claim C2, counterexample: on an internal rendering error (the
savefig oracle raising), the API chart renderer `create_chart_image`
returns `None` — no image bytes at all, not a placeholder image — as its
own docstring states ("Returns BytesIO ... or None on failure"). -/
theorem C2_counterexample :
    create_chart_image (summarizeOk egC4).summary "bar"
      (fun _ => .error ()) = none := rfl

/-- Claim C2, amended: the API renderer returns the rendered bytes when
the plotting layer succeeds with a non-empty buffer, but returns `None`
(nothing) on any internal rendering error.  Of its two callers,
`ReportFromSummaryView.post` then draws the textual "chart not
available" notice while `ReportView.get` silently omits the chart (no
fallback).  The desktop renderer `create_plot_image` instead takes its
placeholder path on a rendering error, returning the error-figure bytes
and, when even that rendering fails, the (non-empty) raw PNG signature
bytes. -/
theorem C2_render_behavior :
    (∀ (s : Summary) (ct : String)
        (render : ChartSpec → Except Unit (List Nat)) (bytes : List Nat),
        render (buildChart s ct) = .ok bytes → bytes ≠ [] →
        create_chart_image s ct render = some bytes)
    ∧ (∀ (s : Summary) (ct : String)
        (render : ChartSpec → Except Unit (List Nat)),
        render (buildChart s ct) = .error () →
        create_chart_image s ct render = none)
    ∧ (∀ (s : Summary) (ct : String)
        (render : ChartSpec → Except Unit (List Nat)),
        render (buildChart s ct) = .error () →
        adHocTypeChartSection s ct render = [.notAvailableText]
        ∧ reportViewChartSection s ct render = [])
    ∧ (∀ (vd : List (String × Option ℚ)) (ct : String)
        (render : DeskSpec → Except Unit (List Nat)),
        render (buildPlot vd ct) = .error () →
        create_plot_image vd ct render = deskErrorPath render)
    ∧ (∀ (render : DeskSpec → Except Unit (List Nat)),
        render .errorText = .error () → deskErrorPath render = pngMagic)
    ∧ pngMagic ≠ [] := by
  have hnone : ∀ (s : Summary) (ct : String)
      (render : ChartSpec → Except Unit (List Nat)),
      render (buildChart s ct) = .error () →
      create_chart_image s ct render = none := by
    intro s ct render hr
    unfold create_chart_image
    rw [hr]
  refine ⟨fun s ct render bytes hr hne => ?_, hnone,
    fun s ct render hr => ⟨?_, ?_⟩, fun vd ct render hr => ?_,
    fun render hr => ?_, by decide⟩
  · unfold create_chart_image
    rw [hr]
    simp [List.length_eq_zero, hne]
  · unfold adHocTypeChartSection
    rw [hnone s ct render hr]
  · unfold reportViewChartSection
    rw [hnone s ct render hr]
  · unfold create_plot_image
    rw [hr]
  · unfold deskErrorPath
    rw [hr]

/-- Claim C2, witness: on the Pump/Pump/Valve distribution the API
renderer returns the oracle's bytes on success and `None` on error; with
that error, the ad-hoc report draws the textual notice while
`ReportView` draws nothing; and the desktop renderer under an all-error
oracle returns the PNG signature bytes. -/
theorem C2_witness :
    create_chart_image (summarizeOk egC4).summary "pie"
      (fun _ => .ok [1, 2]) = some [1, 2]
    ∧ create_chart_image (summarizeOk egC4).summary "pie"
      (fun _ => .error ()) = none
    ∧ adHocTypeChartSection (summarizeOk egC4).summary "pie"
      (fun _ => .error ()) = [.notAvailableText]
    ∧ reportViewChartSection (summarizeOk egC4).summary "pie"
      (fun _ => .error ()) = []
    ∧ create_plot_image [("Pump", some 5)] "bar" (fun _ => .error ())
      = pngMagic :=
  have h3 := C2_render_behavior.2.2.1 (summarizeOk egC4).summary "pie"
    (fun _ => .error ()) rfl
  ⟨C2_render_behavior.1 _ "pie" _ [1, 2] rfl (by decide),
   C2_render_behavior.2.1 _ "pie" _ rfl,
   h3.1, h3.2,
   (C2_render_behavior.2.2.2.1 [("Pump", some 5)] "bar" _ rfl).trans
     (C2_render_behavior.2.2.2.2.1 _ rfl)⟩

/-- Claim C7: a pie chart over a series whose counts sum to zero becomes
the "No data" text placeholder (and with a succeeding savefig oracle the
renderer returns that placeholder image); pie wedges are only ever handed
to the plotting layer with a nonzero sum, in both the API and the desktop
renderer, so the degenerate division never reaches it. -/
theorem C7_pie_zero_sum (s : Summary)
    (h : (s.type_distribution.map Prod.snd).sum = 0) :
    buildChart s "pie" = .textNoData
    ∧ (∀ (render : ChartSpec → Except Unit (List Nat)) (b : List Nat),
        render .textNoData = .ok b → b ≠ [] →
        create_chart_image s "pie" render = some b)
    ∧ (∀ (s' : Summary) (ct : String) (counts : List Nat),
        buildChart s' ct = .pieWedges counts → counts.sum ≠ 0)
    ∧ (∀ (vd : List (String × Option ℚ)), (deskVals vd).sum = 0 →
        buildPlot vd "pie" = .dtextNoData)
    ∧ (∀ (vd : List (String × Option ℚ)) (ct : String) (vals : List ℚ),
        buildPlot vd ct = .dpieWedges vals → vals.sum ≠ 0) := by
  have hb1 : buildChart s "pie" = .textNoData := by
    simp [buildChart, h]
  refine ⟨hb1, fun render b hr hne => ?_, fun s' ct counts heq => ?_,
    fun vd hv => ?_, fun vd ct vals heq => ?_⟩
  · unfold create_chart_image
    rw [hb1, hr]
    simp [List.length_eq_zero, hne]
  · unfold buildChart at heq
    dsimp only at heq
    split at heq
    · split at heq
      · cases heq
      · cases heq
        assumption
    · split at heq
      · cases heq
      · split at heq
        · split at heq
          · cases heq
          · cases heq
        · cases heq
  · simp [buildPlot, hv]
  · unfold buildPlot at heq
    dsimp only at heq
    split at heq
    · cases heq
    · split at heq
      · cases heq
      · split at heq
        · split at heq
          · cases heq
          · cases heq
            assumption
        · split at heq
          · split at heq
            · cases heq
            · cases heq
          · cases heq

/-- Claim C7, witness: the empty distribution with chart type `pie`
builds the "No data" placeholder, and with a succeeding oracle the
renderer returns the placeholder image bytes. -/
theorem C7_witness :
    buildChart emptySummary "pie" = .textNoData
    ∧ create_chart_image emptySummary "pie"
        (fun _ => .ok [7]) = some [7] :=
  have hc := C7_pie_zero_sum emptySummary rfl
  ⟨hc.1, hc.2.1 _ [7] rfl (by decide)⟩

/-- Claim C8, counterexample: an ad-hoc preview row with seven columns is
rendered by `ReportFromSummaryView.post` with all seven columns — the
column set is not truncated to a bounded count of 5–6 (the page width is
just divided evenly among however many columns there are). -/
theorem C8_counterexample :
    ¬ (adHocPreviewTable egWide).cols.length ≤ 6 := by decide

/-- Claim C8, amended: the row caps hold — at most 8 rows for a
summary-derived preview (`ReportView`, desktop PDF) and at most the
first 10 for an ad-hoc preview — and the desktop client truncates
columns to the first 6, but the API report views render the full column
set of the input (only the cell text is truncated, to 12 or 15
characters). -/
theorem C8_preview_caps :
    (∀ pr, (adHocPreviewTable pr).rows.length ≤ 10)
    ∧ (∀ df, (reportViewPreviewTable df).rows.length ≤ 8)
    ∧ (∀ pr, (nicePdfPreviewTable pr).rows.length ≤ 8
        ∧ (nicePdfPreviewTable pr).cols.length ≤ 6)
    ∧ (∀ (r : List (String × String)) (rest : List (List (String × String))),
        (adHocPreviewTable (r :: rest)).cols.length = r.length) := by
  refine ⟨fun pr => ?_, fun df => ?_, fun pr => ⟨?_, ?_⟩, fun r rest => ?_⟩
  · simp only [adHocPreviewTable, List.length_map, List.length_take]
    omega
  · simp only [reportViewPreviewTable, List.length_map, List.length_take]
    omega
  · simp only [nicePdfPreviewTable, List.length_map, List.length_take]
    omega
  · rcases pr with _ | ⟨r, rest⟩ <;>
      simp only [nicePdfPreviewTable, List.length_map, List.length_take] <;>
      omega
  · simp [adHocPreviewTable]

/-- Claim C9: in the analysis charts a `None` (unavailable) per-type
average is plotted as the value 0, in both the API composer
(views.py:669-672) and the desktop renderer (pyqt_app.py:121): replacing
every `None` entry by an explicit average of 0 yields exactly the same
plotted value list, so the chart cannot distinguish the two. -/
theorem C9_null_plots_as_zero :
    (∀ d : List (Cell × Option ℚ),
        analysisVals d
          = analysisVals (d.map (fun p => (p.1, some (p.2.getD 0)))))
    ∧ (∀ vd : List (String × Option ℚ),
        deskVals vd
          = deskVals (vd.map (fun p => (p.1, some (p.2.getD 0))))) := by
  constructor
  · intro d
    induction d with
    | nil => rfl
    | cons p d ih =>
      rcases p with ⟨k, v⟩
      rcases v with _ | v <;> simpa [analysisVals] using ih
  · intro vd
    induction vd with
    | nil => rfl
    | cons p vd ih =>
      rcases p with ⟨k, v⟩
      rcases v with _ | v <;> simpa [deskVals] using ih

/-- Claim C10: the analysis section drawn by `ReportFromSummaryView.post`
is identical for any two requests that agree on `analysis.include` but
differ arbitrarily in `analysis.mode` and `analysis.parameter` — both
branches of the mode test yield `['Flowrate', 'Pressure', 'Temperature']`
and the parameter field is never read. -/
theorem C10_mode_parameter_no_effect (summary : Summary)
    (cfg cfg' : AnalysisCfg) (act : List (String × String))
    (h : cfg.inc = cfg'.inc) :
    analysisSection summary cfg act = analysisSection summary cfg' act := by
  have hp : params_to_draw cfg.mode = params_to_draw cfg'.mode := by
    simp [params_to_draw]
  simp only [analysisSection, h, hp]

/-- Claim C10, witness: a `single`-mode request naming `Pressure` and an
`all`-mode request with no parameter draw the same analysis charts on
the Pump/Pump/Valve summary. -/
theorem C10_witness :
    analysisSection (summarizeOk egC4).summary
        { inc := true, mode := "single", parameter := some "Pressure" } []
      = analysisSection (summarizeOk egC4).summary
        { inc := true, mode := "all", parameter := none } [] :=
  C10_mode_parameter_no_effect (summarizeOk egC4).summary
    { inc := true, mode := "single", parameter := some "Pressure" }
    { inc := true, mode := "all", parameter := none } [] rfl

end CEPV
